import Mathlib

/- Shallow embedding of the Flask CRUD backend in flaskProject/main.py and
flaskProject/validator.py.

Modelling conventions:
* A Python dict value appearing in a record is one of: an int, a str, a
  decimal literal (prices such as 1.25, kept exactly as hundredths), or a
  uuid.uuid4() result (kept as an abstract token; a UUID object is never
  equal to an int or a string, which the constructor distinction models).
* A record is a Python dict.  All authored code uses string keys; the single
  statement sale[index] = xmlData in putSales additionally installs an
  integer key whose value is a payload mapping, so a record carries its
  string-keyed fields plus a (normally empty) list of integer-keyed payload
  mappings.  Dict assignment d[k] = v overwrites an existing key in place
  and otherwise appends a new key, which setF reproduces.
* Request payloads (the result of xmltodict.parse(request.data) or of
  request.json) are modelled as field lists.  request.json is none when
  the body is absent or not valid JSON (Flask then signals BadRequest,
  which the abort(400) path of the handlers also produces, so both surface
  as status 400); a present empty object is falsy for the test
  "not request.json".
* validator.is_valid_xml is modelled from its source: postProducts hands it
  the mapping produced by xmltodict.parse, but etree.fromstring on line 11
  of validator.py requires a string or bytes and raises ValueError on a
  mapping, before the schema file is ever consulted — so on the arguments
  the program produces the call never returns a boolean.  The outcome of
  validator.is_valid_json on the always-parseable json.dumps output the
  handlers pass it is abstracted as a boolean function vj on the decoded
  payload (its schema file is deployment-supplied, not in the sources); its
  own control flow is modelled separately as is_valid_json.
* uuid.uuid4() draws a fresh random token; each handler call draws at most
  one, passed in as the fresh argument.
-/

inductive Value where
  | vint (n : Int)
  | vstr (s : String)
  | vdec (hundredths : Int)
  | vuuid (token : Nat)
deriving DecidableEq

abbrev Fields := List (String × Value)

structure Record where
  fields : Fields
  intKeyed : List (Nat × Fields)
deriving DecidableEq

/-- Python dict lookup d[key] on the string-keyed fields; none models a
KeyError. -/
def lookupF : Fields → String → Option Value
  | [], _ => none
  | (k, v) :: rest, key => if k = key then some v else lookupF rest key

/-- Python dict assignment d[key] = v: overwrite the existing entry in
place, otherwise append the new key at the end. -/
def setF : Fields → String → Value → Fields
  | [], key, v => [(key, v)]
  | (k, w) :: rest, key, v =>
      if k = key then (key, v) :: rest else (k, w) :: setF rest key v

def Record.get (r : Record) (key : String) : Option Value :=
  lookupF r.fields key

def Record.set (r : Record) (key : String) (v : Value) : Record :=
  { r with fields := setF r.fields key v }

/-- Assignment d[i] = payload with an integer key i (only performed by
putSales). -/
def setIntF : List (Nat × Fields) → Nat → Fields → List (Nat × Fields)
  | [], i, d => [(i, d)]
  | (j, e) :: rest, i, d =>
      if j = i then (i, d) :: rest else (j, e) :: setIntF rest i d

def Record.setInt (r : Record) (i : Nat) (d : Fields) : Record :=
  { r with intKeyed := setIntF r.intKeyed i d }

/-- Python list.remove(x): drop the first element equal to x. -/
def removeFirst : List Record → Record → List Record
  | [], _ => []
  | x :: rest, r => if x = r then rest else x :: removeFirst rest r

/-- Python list.index(x): position of the first element equal to x;
none models the ValueError raised when x is absent. -/
def firstIdx : List Record → Record → Option Nat
  | [], _ => none
  | x :: rest, r => if x = r then some 0 else (firstIdx rest r).map (· + 1)

/-- The global in-memory stores declared at the top of main.py. -/
structure AppState where
  products : List Record
  employees : List Record
  customers : List Record
  sales : List Record
deriving DecidableEq

/-- An inbound request as the handlers observe it: the Content-Type header,
the payload that xmltodict.parse(request.data) would yield, and request.json
(none when the body is absent or not valid JSON). -/
structure Request where
  contentType : Option String
  xmlData : Fields
  jsonBody : Option Fields
deriving DecidableEq

/-- Observable outcome of one handler invocation. -/
inductive HResult where
  /-- HTTP 200 with the returned record as body. -/
  | ok (body : Record)
  /-- a status from abort(code) or from a Response whose status_code was
  set. -/
  | status (code : Nat)
  /-- an uncaught KeyError on the named dict key. -/
  | keyError (key : String)
  /-- an uncaught ValueError (from etree.fromstring on a mapping, or from
  list.index on an absent element). -/
  | valueError
  /-- an uncaught AttributeError (a dict has no append method). -/
  | attrError (meth : String)
  /-- the handler fell off the end of its body and returned None. -/
  | noResponse
deriving DecidableEq

def rec0 (f : Fields) : Record := ⟨f, []⟩

-- Seed data from main.py lines 11-32.
def seedProducts : List Record :=
  [rec0 [("productID", .vint 1), ("name", .vstr "cat food"), ("price", .vdec 125)],
   rec0 [("productID", .vint 2), ("name", .vstr "dog food"), ("price", .vdec 535)],
   rec0 [("productID", .vint 3), ("name", .vstr "guinea pig food"), ("price", .vdec 1200)]]

def seedEmployees : List Record :=
  [rec0 [("employeeID", .vint 100), ("firstName", .vstr "Pieter"),
         ("middleInitial", .vstr ""), ("lastName", .vstr "Post")],
   rec0 [("employeeID", .vint 101), ("firstName", .vstr "Jannie"),
         ("middleInitial", .vstr ""), ("lastName", .vstr "Post")],
   rec0 [("employeeID", .vint 102), ("firstName", .vstr "Jannes"),
         ("middleInitial", .vstr ""), ("lastName", .vstr "Post")]]

def seedCustomers : List Record :=
  [rec0 [("customerID", .vint 10), ("firstName", .vstr "Karel"),
         ("middleInitial", .vstr ""), ("lastName", .vstr "Bos")],
   rec0 [("customerID", .vint 11), ("firstName", .vstr "Jan"),
         ("middleInitial", .vstr ""), ("lastName", .vstr "Pieter")],
   rec0 [("customerID", .vint 12), ("firstName", .vstr "Bert"),
         ("middleInitial", .vstr "en"), ("lastName", .vstr "Ernie")]]

def seedSales : List Record :=
  [rec0 [("salesID", .vint 21), ("salesPersonalID", .vint 211),
         ("customerID", .vint 201), ("productID", .vint 31), ("quantity", .vint 75)],
   rec0 [("salesID", .vint 22), ("salesPersonalID", .vint 206),
         ("customerID", .vint 303), ("productID", .vint 6), ("quantity", .vint 5)],
   rec0 [("salesID", .vint 23), ("salesPersonalID", .vint 207),
         ("customerID", .vint 303), ("productID", .vint 8), ("quantity", .vint 5)]]

def seedState : AppState :=
  { products := seedProducts, employees := seedEmployees,
    customers := seedCustomers, sales := seedSales }

-- GET collection handlers: return jsonify(store) — the whole store, in
-- order, with no filtering and no mutation.
def getProducts (s : AppState) : List Record × AppState := (s.products, s)

def getEmployees (s : AppState) : List Record × AppState := (s.employees, s)

def getCustomers (s : AppState) : List Record × AppState := (s.customers, s)

def getSales (s : AppState) : List Record × AppState := (s.sales, s)

/-- Common body of the four DELETE handlers.  The for loop of the source
returns a Response at the end of its first iteration on both the match
and the mismatch branch, so only the first record of the store is ever
inspected; on an empty store the loop body never runs and the handler
returns None.  pidN is the numeric conversion int(pid) of the path
argument. -/
def delEntity (key : String) (pidN : Int) (store : List Record) :
    HResult × List Record :=
  match store with
  | [] => (.noResponse, store)
  | entry :: _ =>
    match Record.get entry key with
    | none => (.keyError key, store)
    | some v =>
      if v = Value.vint pidN then (.status 200, removeFirst store entry)
      else (.status 404, store)

/-- Handler delProducts, main.py lines 137-148. -/
def delProducts (pidN : Int) (store : List Record) : HResult × List Record :=
  delEntity "productID" pidN store

/-- Handler delEmployees, main.py lines 238-249. -/
def delEmployees (pidN : Int) (store : List Record) : HResult × List Record :=
  delEntity "employeeID" pidN store

/-- Handler delCustomers, main.py lines 339-350. -/
def delCustomers (pidN : Int) (store : List Record) : HResult × List Record :=
  delEntity "customerID" pidN store

/-- Handler delSales, main.py lines 442-453. -/
def delSales (pidN : Int) (store : List Record) : HResult × List Record :=
  delEntity "salesID" pidN store

/-- Result of calling validator.is_valid_xml (validator.py lines 7-12) on
the argument postProducts passes it: the handler hands over the mapping
produced by xmltodict.parse (main.py lines 84-85), but etree.fromstring on
line 11 requires a string or bytes and raises ValueError on a mapping,
before xsd.validate is reached, so the schema file never matters.  The
raise is modelled as none; a returned boolean, some b, is never produced
for a mapping argument. -/
def is_valid_xml (_xml : Fields) : Option Bool := none

/-- Handler postProducts, main.py lines 78-105.  vj abstracts the boolean
verdict of validator.is_valid_json on the json.dumps output passed to it
(its schema file is deployment-supplied, not in the sources); fresh is the
token drawn by uuid.uuid4().  The XML branch calls is_valid_xml, whose
ValueError (it is handed a mapping) propagates uncaught. -/
def postProducts (vj : Fields → Bool) (req : Request) (fresh : Nat)
    (s : AppState) : HResult × AppState :=
  if req.contentType = some "application/xml" then
    match is_valid_xml req.xmlData with
    | none => (.valueError, s)
    | some is_valid =>
      if is_valid then
        let xmlData := Record.set (rec0 req.xmlData) "productID" (.vuuid fresh)
        (.ok xmlData, { s with products := s.products ++ [xmlData] })
      else (.status 400, s)
  else
    match req.jsonBody with
    | none => (.status 400, s)
    | some j =>
      if j = [] then (.status 400, s)
      else if vj j then
        let jsonData := Record.set (rec0 j) "productID" (.vuuid fresh)
        (.ok jsonData, { s with products := s.products ++ [jsonData] })
      else (.status 400, s)

/-- Handler postEmployees, main.py lines 188-206.  No validator is called,
and both branches append to products, not to employees. -/
def postEmployees (req : Request) (fresh : Nat) (s : AppState) :
    HResult × AppState :=
  if req.contentType = some "application/xml" then
    let xmlData := Record.set (rec0 req.xmlData) "employeeID" (.vuuid fresh)
    (.ok xmlData, { s with products := s.products ++ [xmlData] })
  else
    match req.jsonBody with
    | none => (.status 400, s)
    | some j =>
      if j = [] then (.status 400, s)
      else
        let jsonData := Record.set (rec0 j) "employeeID" (.vuuid fresh)
        (.ok jsonData, { s with products := s.products ++ [jsonData] })

/-- Handler postCustomers, main.py lines 289-307.  No validator is called,
and both branches append to products, not to customers. -/
def postCustomers (req : Request) (fresh : Nat) (s : AppState) :
    HResult × AppState :=
  if req.contentType = some "application/xml" then
    let xmlData := Record.set (rec0 req.xmlData) "customerID" (.vuuid fresh)
    (.ok xmlData, { s with products := s.products ++ [xmlData] })
  else
    match req.jsonBody with
    | none => (.status 400, s)
    | some j =>
      if j = [] then (.status 400, s)
      else
        let jsonData := Record.set (rec0 j) "customerID" (.vuuid fresh)
        (.ok jsonData, { s with products := s.products ++ [jsonData] })

/-- Handler postSales, main.py lines 420-438.  No validator is called, and
both branches append to products, not to sales. -/
def postSales (req : Request) (fresh : Nat) (s : AppState) :
    HResult × AppState :=
  if req.contentType = some "application/xml" then
    let xmlData := Record.set (rec0 req.xmlData) "salesID" (.vuuid fresh)
    (.ok xmlData, { s with products := s.products ++ [xmlData] })
  else
    match req.jsonBody with
    | none => (.status 400, s)
    | some j =>
      if j = [] then (.status 400, s)
      else
        let jsonData := Record.set (rec0 j) "salesID" (.vuuid fresh)
        (.ok jsonData, { s with products := s.products ++ [jsonData] })

/-- Common loop of putProducts, putEmployees and putCustomers (which are
identical up to the identifier key and the store).  store is the full list
the handler iterates over and mutates; the last argument is the suffix still
to be scanned.  On a match the XML branch fixes the identifier to the path
value and replaces store[store.index(entry)]; the JSON branch instead draws
a fresh UUID identifier and appends.  The path argument pathId arrives as a
string from request.view_args, so it is never equal to the integer
identifiers of the seeded records. -/
def putEntityScan (key : String) (req : Request) (pathId : Value)
    (fresh : Nat) (store : List Record) :
    List Record → HResult × List Record
  | [] => (.noResponse, store)
  | entry :: rest =>
    match Record.get entry key with
    | none => (.keyError key, store)
    | some v =>
      if v = pathId then
        if req.contentType = some "application/xml" then
          let xmlData := Record.set (rec0 req.xmlData) key pathId
          match firstIdx store entry with
          | none => (.valueError, store)
          | some index => (.ok xmlData, store.set index xmlData)
        else
          match req.jsonBody with
          | none => (.status 400, store)
          | some j =>
            if j = [] then (.status 400, store)
            else
              let jsonData := Record.set (rec0 j) key (.vuuid fresh)
              (.ok jsonData, store ++ [jsonData])
      else putEntityScan key req pathId fresh store rest

/-- Handler putProducts, main.py lines 110-133. -/
def putProducts (req : Request) (pathId : Value) (fresh : Nat)
    (store : List Record) : HResult × List Record :=
  putEntityScan "productID" req pathId fresh store store

/-- Handler putEmployees, main.py lines 211-234. -/
def putEmployees (req : Request) (pathId : Value) (fresh : Nat)
    (store : List Record) : HResult × List Record :=
  putEntityScan "employeeID" req pathId fresh store store

/-- Handler putCustomers, main.py lines 312-335. -/
def putCustomers (req : Request) (pathId : Value) (fresh : Nat)
    (store : List Record) : HResult × List Record :=
  putEntityScan "customerID" req pathId fresh store store

/-- Loop of putSales, main.py lines 393-416, scanning the suffix of s.sales
that starts at position pos.  The loop condition reads the dict entry named
saleID, a key no seeded record carries (they carry salesID), so the first
iteration normally raises KeyError.  Were a record matched, the XML branch
runs customers.index(sale) (a ValueError unless an equal record sits in the
customers store) and then assigns the payload under the integer key index,
an in-place mutation of the matched record; the JSON branch runs
sale.append(jsonData), an AttributeError since a dict has no append
method. -/
def putSalesScan (req : Request) (cid : Value) (fresh : Nat) (s : AppState) :
    Nat → List Record → HResult × AppState
  | _, [] => (.noResponse, s)
  | pos, sale :: rest =>
    match Record.get sale "saleID" with
    | none => (.keyError "saleID", s)
    | some v =>
      if v = cid then
        if req.contentType = some "application/xml" then
          let xmlData := Record.set (rec0 req.xmlData) "saleID" cid
          match firstIdx s.customers sale with
          | none => (.valueError, s)
          | some index =>
            let saleNew := Record.setInt sale index xmlData.fields
            (.ok xmlData, { s with sales := s.sales.set pos saleNew })
        else
          match req.jsonBody with
          | none => (.status 400, s)
          | some j =>
            if j = [] then (.status 400, s)
            else (.attrError "append", s)
      else putSalesScan req cid fresh s (pos + 1) rest

/-- Handler putSales, main.py lines 393-416. -/
def putSales (req : Request) (cid : Value) (fresh : Nat) (s : AppState) :
    HResult × AppState :=
  putSalesScan req cid fresh s 0 s.sales

/-- Abstract parsed-JSON document handed to jsonschema.validate. -/
abbrev JsonDoc := Fields

/-- External collaborators of validator.is_valid_json: the decoded schema
file (none models a JSONDecodeError from json.load(f)), the payload parser
json.loads, and jsonschema.validate (returning some message for a
ValidationError, none for success). -/
structure JsonEnv where
  schemaDoc : Option String
  parse : String → Option JsonDoc
  validationError : String → JsonDoc → Option String

/-- What a call to validator.is_valid_json does: either return a boolean
(with the messages it printed) or raise. -/
inductive VOut where
  | ret (b : Bool) (log : List String)
  | raise (msg : String)
deriving DecidableEq

def VOut.isRet : VOut → Bool
  | .ret _ _ => true
  | .raise _ => false

/-- Model of validator.is_valid_json, validator.py lines 15-30: load and
decode the schema file (returning False if it does not decode), then parse
the payload with json.loads (whose JSONDecodeError is not caught and
propagates), then validate, printing the message and returning False on a
ValidationError and returning True otherwise. -/
def is_valid_json (env : JsonEnv) (json_string : String) : VOut :=
  match env.schemaDoc with
  | none => .ret false []
  | some schema =>
    match env.parse json_string with
    | none => .raise "json.decoder.JSONDecodeError"
    | some json_object =>
      match env.validationError schema json_object with
      | none => .ret true []
      | some e => .ret false [e]

-- Concrete requests, records and environments used by the theorems below.

def reqAnn : Request :=
  { contentType := none, xmlData := [],
    jsonBody := some [("firstName", .vstr "Ann"), ("middleInitial", .vstr ""),
                      ("lastName", .vstr "Bee")] }

def recAnn : Record :=
  rec0 [("firstName", .vstr "Ann"), ("middleInitial", .vstr ""),
        ("lastName", .vstr "Bee"), ("employeeID", .vuuid 7)]

def reqNoBody : Request :=
  { contentType := some "application/json", xmlData := [], jsonBody := none }

def reqBea : Request :=
  { contentType := none, xmlData := [],
    jsonBody := some [("firstName", .vstr "Bea")] }

def recBea : Record := rec0 [("firstName", .vstr "Bea"), ("customerID", .vuuid 5)]

def reqXmlAnn : Request :=
  { contentType := some "application/xml",
    xmlData := [("firstName", .vstr "Ann")], jsonBody := none }

def recXmlAnn : Record := rec0 [("firstName", .vstr "Ann"), ("employeeID", .vuuid 7)]

def mP9 : Record := rec0 [("productID", .vstr "9")]

def reqPutXml : Request :=
  { contentType := some "application/xml",
    xmlData := [("name", .vstr "x")], jsonBody := none }

def recPutX : Record := rec0 [("name", .vstr "x"), ("productID", .vstr "9")]

def reqPutJson : Request :=
  { contentType := none, xmlData := [], jsonBody := some [("name", .vstr "x")] }

def recPut : Record := rec0 [("name", .vstr "x"), ("productID", .vuuid 0)]

def envW : JsonEnv :=
  { schemaDoc := some "schema",
    parse := fun t => if t = "payload" then some [] else none,
    validationError := fun _ j => if j = [] then some "mismatch" else none }

def envBad : JsonEnv :=
  { schemaDoc := some "schema", parse := fun _ => none,
    validationError := fun _ _ => none }

-- Helper lemmas.

theorem postEmployees_shape (req : Request) (fresh : Nat) (s : AppState) :
    postEmployees req fresh s = (.status 400, s)
    ∨ ∃ b, postEmployees req fresh s
        = (.ok b, { s with products := s.products ++ [b] }) := by
  unfold postEmployees
  split
  · exact Or.inr ⟨_, rfl⟩
  · split
    · exact Or.inl rfl
    · split
      · exact Or.inl rfl
      · exact Or.inr ⟨_, rfl⟩

theorem postCustomers_shape (req : Request) (fresh : Nat) (s : AppState) :
    postCustomers req fresh s = (.status 400, s)
    ∨ ∃ b, postCustomers req fresh s
        = (.ok b, { s with products := s.products ++ [b] }) := by
  unfold postCustomers
  split
  · exact Or.inr ⟨_, rfl⟩
  · split
    · exact Or.inl rfl
    · split
      · exact Or.inl rfl
      · exact Or.inr ⟨_, rfl⟩

theorem postSales_shape (req : Request) (fresh : Nat) (s : AppState) :
    postSales req fresh s = (.status 400, s)
    ∨ ∃ b, postSales req fresh s
        = (.ok b, { s with products := s.products ++ [b] }) := by
  unfold postSales
  split
  · exact Or.inr ⟨_, rfl⟩
  · split
    · exact Or.inl rfl
    · split
      · exact Or.inl rfl
      · exact Or.inr ⟨_, rfl⟩

theorem putScan_skip (key : String) (req : Request) (pathId : Value)
    (fresh : Nat) (store : List Record) (pre rest : List Record)
    (hpre : ∀ r ∈ pre, ∃ v, Record.get r key = some v ∧ v ≠ pathId) :
    putEntityScan key req pathId fresh store (pre ++ rest)
      = putEntityScan key req pathId fresh store rest := by
  induction pre with
  | nil => rfl
  | cons a t ih =>
    obtain ⟨v, hv, hne⟩ := hpre a (List.mem_cons_self a t)
    have h1 : putEntityScan key req pathId fresh store ((a :: t) ++ rest)
        = putEntityScan key req pathId fresh store (t ++ rest) := by
      simp [putEntityScan, hv, hne]
    rw [h1]
    exact ih (fun r hr => hpre r (List.mem_cons_of_mem a hr))

theorem firstIdx_of_distinct_prefix (pre post : List Record) (m : Record)
    (h : ∀ r ∈ pre, r ≠ m) :
    firstIdx (pre ++ m :: post) m = some pre.length := by
  induction pre with
  | nil => simp [firstIdx]
  | cons a t ih =>
    have ha := h a (List.mem_cons_self a t)
    simp [firstIdx, ha, ih (fun r hr => h r (List.mem_cons_of_mem a hr))]

theorem set_at_prefix_length (pre post : List Record) (m x : Record) :
    (pre ++ m :: post).set pre.length x = pre ++ x :: post := by
  induction pre with
  | nil => rfl
  | cons a t ih => simp [List.set, ih]

/-- Behaviour of the shared PUT loop when the store decomposes as
pre ++ m :: post with m the first record whose identifier equals the path
value: the XML branch replaces m in place with the payload whose identifier
was fixed to the path value; the JSON branch appends a brand-new record
whose identifier is a fresh UUID, leaving m where it was. -/
theorem putScan_match (key : String) (req : Request) (pathId : Value)
    (fresh : Nat) (pre m post)
    (hm : Record.get m key = some pathId)
    (hpre : ∀ r ∈ pre, ∃ v, Record.get r key = some v ∧ v ≠ pathId) :
    (req.contentType = some "application/xml" →
       putEntityScan key req pathId fresh (pre ++ m :: post) (pre ++ m :: post)
         = (.ok (Record.set (rec0 req.xmlData) key pathId),
            pre ++ Record.set (rec0 req.xmlData) key pathId :: post))
  ∧ (∀ j, req.jsonBody = some j → j ≠ [] →
       req.contentType ≠ some "application/xml" →
       putEntityScan key req pathId fresh (pre ++ m :: post) (pre ++ m :: post)
         = (.ok (Record.set (rec0 j) key (.vuuid fresh)),
            (pre ++ m :: post) ++ [Record.set (rec0 j) key (.vuuid fresh)])) := by
  have hskip := putScan_skip key req pathId fresh (pre ++ m :: post) pre
    (m :: post) hpre
  have hneq : ∀ r ∈ pre, r ≠ m := by
    intro r hr hcontra
    obtain ⟨v, hv, hne⟩ := hpre r hr
    rw [hcontra, hm] at hv
    exact hne (Option.some.inj hv).symm
  have hidx := firstIdx_of_distinct_prefix pre post m hneq
  constructor
  · intro hct
    rw [hskip]
    simp [putEntityScan, hm, hct, hidx, set_at_prefix_length]
  · intro j hj hjne hct
    rw [hskip]
    simp [putEntityScan, hm, hct, hj, hjne]

-- Claims.

/-- C1: a successful POST to the employees collection stores the new record
in the products list; the employees collection returned by a subsequent GET
does not contain it, contradicting the claim that a GET after a successful
POST shows the created record in the same family. -/
theorem postEmployees_record_invisible_in_own_collection :
    postEmployees reqAnn 7 seedState
      = (.ok recAnn, { seedState with products := seedState.products ++ [recAnn] })
  ∧ (getEmployees { seedState with products := seedState.products ++ [recAnn] }).1
      = seedEmployees
  ∧ recAnn ∉ seedEmployees
  ∧ recAnn ∈ seedProducts ++ [recAnn] :=
  ⟨rfl, rfl, by decide, by decide⟩

/-- C2: from the seed products store, a DELETE of id 2 answers 404 and
removes nothing, because the handler returns inside the first loop
iteration; only a delete of the first record (id 1) succeeds. -/
theorem delProducts_inspects_first_record_only :
    delProducts 2 seedProducts = (.status 404, seedProducts)
  ∧ delProducts 1 seedProducts = (.status 200, seedProducts.tail) :=
  ⟨rfl, rfl⟩

/-- C3 (amended): for putProducts, putEmployees and putCustomers, when the
path identifier matches a record (and every earlier record carries a
different identifier under the entity key), the XML branch fixes the
identifier of the payload to the path value and replaces the matched record
in place at its position, but the JSON branch instead assigns a fresh UUID
identifier and appends the payload as a new record, growing the store by one
and leaving the matched record in place. -/
theorem put_match_update_behavior (req : Request) (pathId : Value)
    (fresh : Nat) (pre post : List Record) (m : Record) :
    (Record.get m "productID" = some pathId →
     (∀ r ∈ pre, ∃ v, Record.get r "productID" = some v ∧ v ≠ pathId) →
     (req.contentType = some "application/xml" →
        putProducts req pathId fresh (pre ++ m :: post)
          = (.ok (Record.set (rec0 req.xmlData) "productID" pathId),
             pre ++ Record.set (rec0 req.xmlData) "productID" pathId :: post))
     ∧ (∀ j, req.jsonBody = some j → j ≠ [] →
          req.contentType ≠ some "application/xml" →
          putProducts req pathId fresh (pre ++ m :: post)
            = (.ok (Record.set (rec0 j) "productID" (.vuuid fresh)),
               (pre ++ m :: post) ++ [Record.set (rec0 j) "productID" (.vuuid fresh)])))
  ∧ (Record.get m "employeeID" = some pathId →
     (∀ r ∈ pre, ∃ v, Record.get r "employeeID" = some v ∧ v ≠ pathId) →
     (req.contentType = some "application/xml" →
        putEmployees req pathId fresh (pre ++ m :: post)
          = (.ok (Record.set (rec0 req.xmlData) "employeeID" pathId),
             pre ++ Record.set (rec0 req.xmlData) "employeeID" pathId :: post))
     ∧ (∀ j, req.jsonBody = some j → j ≠ [] →
          req.contentType ≠ some "application/xml" →
          putEmployees req pathId fresh (pre ++ m :: post)
            = (.ok (Record.set (rec0 j) "employeeID" (.vuuid fresh)),
               (pre ++ m :: post) ++ [Record.set (rec0 j) "employeeID" (.vuuid fresh)])))
  ∧ (Record.get m "customerID" = some pathId →
     (∀ r ∈ pre, ∃ v, Record.get r "customerID" = some v ∧ v ≠ pathId) →
     (req.contentType = some "application/xml" →
        putCustomers req pathId fresh (pre ++ m :: post)
          = (.ok (Record.set (rec0 req.xmlData) "customerID" pathId),
             pre ++ Record.set (rec0 req.xmlData) "customerID" pathId :: post))
     ∧ (∀ j, req.jsonBody = some j → j ≠ [] →
          req.contentType ≠ some "application/xml" →
          putCustomers req pathId fresh (pre ++ m :: post)
            = (.ok (Record.set (rec0 j) "customerID" (.vuuid fresh)),
               (pre ++ m :: post) ++ [Record.set (rec0 j) "customerID" (.vuuid fresh)]))) :=
  ⟨fun hm hpre => putScan_match "productID" req pathId fresh pre m post hm hpre,
   fun hm hpre => putScan_match "employeeID" req pathId fresh pre m post hm hpre,
   fun hm hpre => putScan_match "customerID" req pathId fresh pre m post hm hpre⟩

theorem put_match_update_behavior_at_store :
    putProducts reqPutXml (.vstr "9") 0 [mP9] = (.ok recPutX, [recPutX])
  ∧ putProducts reqPutJson (.vstr "9") 0 [mP9] = (.ok recPut, [mP9, recPut]) :=
  ⟨((put_match_update_behavior reqPutXml (.vstr "9") 0 [] [] mP9).1 rfl
      (by simp)).1 rfl,
   ((put_match_update_behavior reqPutJson (.vstr "9") 0 [] [] mP9).1 rfl
      (by simp)).2 [("name", .vstr "x")] rfl (by simp) (by simp [reqPutJson])⟩

/-- C3 counterexample: on a store holding one record with productID = "9",
a JSON PUT for id "9" does not replace the record: the store grows from one
to two entries and the record it answers with carries a fresh UUID
identifier, not the path value. -/
theorem putProducts_json_appends_instead_of_replacing :
    putProducts reqPutJson (.vstr "9") 0 [mP9] = (.ok recPut, [mP9, recPut])
  ∧ [mP9, recPut].length ≠ [mP9].length
  ∧ Record.get recPut "productID" = some (.vuuid 0) :=
  ⟨rfl, by decide, rfl⟩

/-- C4: an XML POST of a schema-violating payload never answers 400.  On the
products endpoint the call into the validator raises ValueError (postProducts
hands is_valid_xml the parsed mapping while etree.fromstring needs text), so
the request dies with an uncaught exception and no store changes; on the
employees endpoint no validator runs at all and the record is accepted with
200 and appended (to the products store). -/
theorem postProducts_xml_validator_raises :
    is_valid_xml reqXmlAnn.xmlData = none
  ∧ postProducts (fun _ => true) reqXmlAnn 7 seedState
      = (.valueError, seedState)
  ∧ postEmployees reqXmlAnn 7 seedState
      = (.ok recXmlAnn,
         { seedState with products := seedState.products ++ [recXmlAnn] }) :=
  ⟨rfl, rfl, rfl⟩

/-- C5: a POST whose Content-Type is application/json (or absent) with a
body that is missing or not valid JSON answers 400 on every entity endpoint
and leaves every store unchanged. -/
theorem post_bad_json_body_400 (vj : Fields → Bool) (req : Request)
    (fresh : Nat) (s : AppState)
    (hct : req.contentType = some "application/json" ∨ req.contentType = none)
    (hb : req.jsonBody = none) :
    postProducts vj req fresh s = (.status 400, s)
  ∧ postEmployees req fresh s = (.status 400, s)
  ∧ postCustomers req fresh s = (.status 400, s)
  ∧ postSales req fresh s = (.status 400, s) := by
  have hx : ¬ req.contentType = some "application/xml" := by
    rcases hct with h | h <;> simp [h]
  refine ⟨?_, ?_, ?_, ?_⟩ <;>
    simp [postProducts, postEmployees, postCustomers, postSales, hx, hb]

theorem post_bad_json_body_400_at_seed :
    postProducts (fun _ => true) reqNoBody 4 seedState = (.status 400, seedState)
  ∧ postEmployees reqNoBody 4 seedState = (.status 400, seedState)
  ∧ postCustomers reqNoBody 4 seedState = (.status 400, seedState)
  ∧ postSales reqNoBody 4 seedState = (.status 400, seedState) :=
  post_bad_json_body_400 (fun _ => true) reqNoBody 4 seedState
    (Or.inl rfl) rfl

/-- C6: the POST handlers of employees, customers and sales never touch
their own store of the entity (nor each each other stores except products);
whenever one of them creates a record, that record is appended to the
products store. -/
theorem post_appends_to_products_store (req : Request) (fresh : Nat)
    (s : AppState) :
    ((postEmployees req fresh s).2.employees = s.employees
      ∧ (postEmployees req fresh s).2.customers = s.customers
      ∧ (postEmployees req fresh s).2.sales = s.sales)
  ∧ ((postCustomers req fresh s).2.customers = s.customers
      ∧ (postCustomers req fresh s).2.employees = s.employees
      ∧ (postCustomers req fresh s).2.sales = s.sales)
  ∧ ((postSales req fresh s).2.sales = s.sales
      ∧ (postSales req fresh s).2.employees = s.employees
      ∧ (postSales req fresh s).2.customers = s.customers)
  ∧ (∀ b s2, postEmployees req fresh s = (.ok b, s2) →
        s2.products = s.products ++ [b])
  ∧ (∀ b s2, postCustomers req fresh s = (.ok b, s2) →
        s2.products = s.products ++ [b])
  ∧ (∀ b s2, postSales req fresh s = (.ok b, s2) →
        s2.products = s.products ++ [b]) := by
  refine ⟨?_, ?_, ?_, ?_, ?_, ?_⟩
  · rcases postEmployees_shape req fresh s with h | ⟨b, h⟩ <;> simp [h]
  · rcases postCustomers_shape req fresh s with h | ⟨b, h⟩ <;> simp [h]
  · rcases postSales_shape req fresh s with h | ⟨b, h⟩ <;> simp [h]
  · intro b s2 hb
    rcases postEmployees_shape req fresh s with h | ⟨b2, h⟩ <;> rw [hb] at h
    · simp at h
    · simp only [Prod.mk.injEq, HResult.ok.injEq] at h
      simp [h.2, h.1]
  · intro b s2 hb
    rcases postCustomers_shape req fresh s with h | ⟨b2, h⟩ <;> rw [hb] at h
    · simp at h
    · simp only [Prod.mk.injEq, HResult.ok.injEq] at h
      simp [h.2, h.1]
  · intro b s2 hb
    rcases postSales_shape req fresh s with h | ⟨b2, h⟩ <;> rw [hb] at h
    · simp at h
    · simp only [Prod.mk.injEq, HResult.ok.injEq] at h
      simp [h.2, h.1]

theorem post_appends_to_products_store_at_seed :
    (postCustomers reqBea 5 seedState).2.customers = seedState.customers
  ∧ (postCustomers reqBea 5 seedState).2.products
      = seedState.products ++ [recBea] :=
  ⟨(post_appends_to_products_store reqBea 5 seedState).2.1.1,
   (post_appends_to_products_store reqBea 5 seedState).2.2.2.2.1 recBea
     ((postCustomers reqBea 5 seedState).2) rfl⟩

/-- C7 (amended): behaviour of is_valid_json.  When the schema file fails to
decode the result is False (nothing logged); otherwise, when the payload
text parses, validation success returns True and a validation failure logs
the mismatch message and returns False; but when the schema file decodes and
the payload text does not parse as JSON, the decode error propagates instead
of any boolean being returned.  The function is pure: its result depends
only on the schema file, the library behaviour and the payload text. -/
theorem is_valid_json_behavior (env : JsonEnv) (s : String) :
    (env.schemaDoc = none → is_valid_json env s = .ret false [])
  ∧ (∀ sc, env.schemaDoc = some sc →
      (env.parse s = none →
         is_valid_json env s = .raise "json.decoder.JSONDecodeError")
      ∧ (∀ j, env.parse s = some j →
          (env.validationError sc j = none → is_valid_json env s = .ret true [])
          ∧ (∀ e, env.validationError sc j = some e →
              is_valid_json env s = .ret false [e]))) :=
  ⟨fun h => by simp [is_valid_json, h],
   fun sc hsc =>
     ⟨fun hp => by simp [is_valid_json, hsc, hp],
      fun j hj =>
        ⟨fun hv => by simp [is_valid_json, hsc, hj, hv],
         fun e he => by simp [is_valid_json, hsc, hj, he]⟩⟩⟩

theorem is_valid_json_behavior_at_envW :
    is_valid_json envW "payload" = .ret false ["mismatch"]
  ∧ is_valid_json envW "junk" = .raise "json.decoder.JSONDecodeError" :=
  ⟨(((is_valid_json_behavior envW "payload").2 "schema" rfl).2 [] rfl).2
      "mismatch" rfl,
   ((is_valid_json_behavior envW "junk").2 "schema" rfl).1 rfl⟩

/-- C7 counterexample: with a decodable schema file, a payload text that is
not valid JSON makes is_valid_json raise (the unguarded json.loads on line
23 of validator.py), so the validator does not return a boolean for every
payload text. -/
theorem is_valid_json_can_raise :
    (is_valid_json envBad "oops").isRet = false := rfl

/-- C8: every collection GET returns the whole store of its entity, in
order, with no filtering, and leaves the state unchanged. -/
theorem get_returns_whole_store (s : AppState) :
    getProducts s = (s.products, s) ∧ getEmployees s = (s.employees, s)
  ∧ getCustomers s = (s.customers, s) ∧ getSales s = (s.sales, s) :=
  ⟨rfl, rfl, rfl, rfl⟩

theorem get_returns_whole_store_seed :
    getProducts seedState = (seedProducts, seedState)
  ∧ getEmployees seedState = (seedEmployees, seedState)
  ∧ getCustomers seedState = (seedCustomers, seedState)
  ∧ getSales seedState = (seedSales, seedState) :=
  get_returns_whole_store seedState

/-- C9: while every sales record carries the key salesID and none carries
the key saleID, any PUT on the sales endpoint raises KeyError on its first
loop iteration and mutates nothing. -/
theorem putSales_raises_keyError (req : Request) (cid : Value) (fresh : Nat)
    (s : AppState) (hne : s.sales ≠ [])
    (hkeys : ∀ r ∈ s.sales,
      Record.get r "saleID" = none ∧ Record.get r "salesID" ≠ none) :
    putSales req cid fresh s = (.keyError "saleID", s) := by
  unfold putSales
  match h : s.sales with
  | [] => exact absurd h hne
  | r :: rest =>
    have hr : Record.get r "saleID" = none :=
      (hkeys r (by rw [h]; exact List.mem_cons_self r rest)).1
    simp [putSalesScan, hr]

theorem putSales_raises_keyError_on_seed :
    putSales reqAnn (.vstr "21") 3 seedState = (.keyError "saleID", seedState) :=
  putSales_raises_keyError reqAnn (.vstr "21") 3 seedState (by decide) (by decide)

/-- C10: on an empty store, every DELETE handler has a loop body that never
runs, so the handler falls through returning None (no status at all, not
404). -/
theorem del_on_empty_store_returns_none (pidN : Int) :
    delProducts pidN [] = (.noResponse, [])
  ∧ delEmployees pidN [] = (.noResponse, [])
  ∧ delCustomers pidN [] = (.noResponse, [])
  ∧ delSales pidN [] = (.noResponse, []) :=
  ⟨rfl, rfl, rfl, rfl⟩

theorem del_on_empty_store_returns_none_at_2 :
    delProducts 2 [] = (.noResponse, [])
  ∧ delEmployees 2 [] = (.noResponse, [])
  ∧ delCustomers 2 [] = (.noResponse, [])
  ∧ delSales 2 [] = (.noResponse, []) :=
  del_on_empty_store_returns_none 2
